import Mathlib

/-!
Shallow embedding of the SKU-resolution and stock-change-detection engine of
the 50FE-Stock-Ping repository (src/50check.py and src/handlers/__init__.py),
with theorems checking the natural-language specification against it.

Conventions of the embedding:
* wall-clock times are natural numbers of seconds;
* Python `timedelta.seconds` (the seconds component of a non-negative delta,
  which excludes whole days) is `d % 86400`;
* Python dicts that are only iterated or looked up are association lists in
  insertion order;
* network fetches are passed in as explicit values (success with parsed
  payload, or failure standing for a requests exception / JSON parse error);
* side effects (prints, notification sends, sleeps, sys.exit) are reified as
  events in an emitted trace, in program order.
-/

namespace StockPing

/-- Python str.lower, modelled character-wise. -/
def pyLower (s : String) : String := String.mk (s.data.map Char.toLower)

/-- Contiguous-substring test on character lists (Python `needle in hay`). -/
def subChars (needle : List Char) : List Char → Bool
  | [] => needle.isEmpty
  | c :: t => needle.isPrefixOf (c :: t) || subChars needle t

/-- Python string membership `needle in hay` (substring containment). -/
def pyIn (needle hay : String) : Bool := subChars needle.toList hay.toList

/-- Python `timedelta.seconds` of a non-negative whole-second delta: the
seconds component excluding whole days (50check.py uses `.seconds`, not
`.total_seconds()`). -/
def pySeconds (d : Nat) : Nat := d % 86400

/-- NOTIFICATION_CONFIG flags (config.py). -/
structure NotifConfig where
  playSound : Bool
  openBrowser : Bool
  logStockChecks : Bool
deriving DecidableEq, Repr

/-- One STATUS_UPDATES sub-config (config.py). -/
structure StatusConfig where
  enabled : Bool
  interval : Nat
deriving DecidableEq, Repr

/-- The configuration slice of config.py that the core engine reads. -/
structure AppConfig where
  notif : NotifConfig
  consoleStatus : StatusConfig
  telegramStatus : StatusConfig
  telegramEnabled : Bool
  ntfyEnabled : Bool
  cooldown : Nat
  checkInterval : Nat
  skuCheckInterval : Nat
  baseUrl : String
deriving DecidableEq, Repr

/-- The resolver's module-global state in 50check.py:
`last_sku_check_time`, `cached_skus`, `sku_to_name_map`. -/
structure ResolverState where
  lastSkuCheckTime : Option Nat
  cachedSkus : List String
  skuToNameMap : List (String × String)
deriving DecidableEq, Repr

/-- The cache-expiry test of get_skus_if_needed (50check.py lines 420-424):
`force_check or last_sku_check_time is None or
(current_time - last_sku_check_time).seconds >= SKU_CHECK_CONFIG["interval"]`. -/
def needsUpdate (forceCheck : Bool) (lastT : Option Nat) (now interval : Nat) : Bool :=
  forceCheck ||
    (match lastT with
     | none => true
     | some t => decide (pySeconds (now - t) ≥ interval))

/-- The missing-product scan of handle_product_mismatch (50check.py lines
85-89): a configured product is missing when its lowered name is a substring
of no lowered API display name. -/
def missingProducts (apiProducts : List (String × String)) (configured : List String) :
    List String :=
  configured.filter (fun p => ! apiProducts.any (fun q => pyIn (pyLower p) (pyLower q.2)))

/-- Events emitted during a catalog refresh.  The skuChanged and
renameDetected constructors are part of the alphabet the specification talks
about; the translated code never emits them. -/
inductive REvent
  | refreshStart (forced : Bool)
  | catalogList (products : List (String × String))
  | mismatchWarning (missing : List String) (remaining : Nat)
  | mismatchSound
  | mismatchTelegram (remaining : Nat)
  | waitR (secs : Nat)
  | exitLog
  | skuChanged (product oldSku newSku : String)
  | renameDetected (product : String)
  | refreshOk (forced : Bool)
  | refreshFailed
deriving DecidableEq, Repr

/-- The warning loop of handle_product_mismatch (50check.py lines 105-127):
while remaining > 0 it prints the warning, optionally plays a sound and sends
a Telegram message, decrements, and sleeps 300 s when attempts remain. -/
def warnIter (cfg : AppConfig) (missing : List String) : Nat → List REvent
  | 0 => []
  | n + 1 =>
    [REvent.mismatchWarning missing (n + 1)]
      ++ (if cfg.notif.playSound then [REvent.mismatchSound] else [])
      ++ (if cfg.telegramEnabled then [REvent.mismatchTelegram (n + 1)] else [])
      ++ (if n > 0 then [REvent.waitR 300] else [])
      ++ warnIter cfg missing n

/-- handle_product_mismatch (50check.py lines 74-129): returns true (continue)
when no configured product is missing, otherwise emits five warning rounds and
returns false (caller exits). -/
def handleProductMismatch (cfg : AppConfig) (apiProducts : List (String × String))
    (configured : List String) : Bool × List REvent :=
  let missing := missingProducts apiProducts configured
  if missing.isEmpty then (true, []) else (false, warnIter cfg missing 5)

/-- Result of the catalog-lookup GET + JSON parse in get_skus_if_needed:
failure stands for a requests exception or JSON decode error raised before
any state is written. -/
inductive CatalogFetch
  | success (products : List (String × String))
  | failure
deriving DecidableEq, Repr

/-- How one call of get_skus_if_needed returns to its caller. -/
inductive RefreshOutcome
  | ok (skus : List String)
  | exited
  | raised
deriving DecidableEq, Repr

/-- The `next(...)` search of get_skus_if_needed (50check.py lines 469-471):
the first configured card whose lowered name is a substring of the lowered
display name and which is enabled. -/
def matchingCard (cards : List (String × Bool)) (name : String) : Option String :=
  (cards.find? (fun c => pyIn (pyLower c.1) (pyLower name) && c.2)).map (fun c => c.1)

/-- The enabled-SKU filter of get_skus_if_needed (50check.py lines 467-473):
keep each catalog SKU whose display name has a matching enabled card that is
also in selected_cards. -/
def enabledSkus (cards : List (String × Bool)) (selected : List String)
    (apiProducts : List (String × String)) : List String :=
  (apiProducts.filter (fun pr =>
    match matchingCard cards pr.2 with
    | some card => selected.contains card
    | none => false)).map (fun pr => pr.1)

/-- get_skus_if_needed (50check.py lines 410-488).  When the cache interval
has not elapsed (and not forced) it returns the cached list untouched with no
events.  On a fetch failure it logs, re-raises only when no cached list
exists, and leaves the state unchanged.  On success it runs the mismatch
check (exiting the process if it fails after five warnings) and otherwise
stores the recomputed SKU list and refresh time. -/
def getSkusIfNeeded (cfg : AppConfig) (cards : List (String × Bool))
    (selected : List String) (fetch : CatalogFetch) (now : Nat) (forceCheck : Bool)
    (s : ResolverState) : RefreshOutcome × ResolverState × List REvent :=
  if needsUpdate forceCheck s.lastSkuCheckTime now cfg.skuCheckInterval then
    match fetch with
    | CatalogFetch.failure =>
      if s.cachedSkus.isEmpty then
        (RefreshOutcome.raised, s, [REvent.refreshStart forceCheck, REvent.refreshFailed])
      else
        (RefreshOutcome.ok s.cachedSkus, s,
          [REvent.refreshStart forceCheck, REvent.refreshFailed])
    | CatalogFetch.success apiProducts =>
      let hm := handleProductMismatch cfg apiProducts selected
      if hm.1 then
        let newSkus := enabledSkus cards selected apiProducts
        (RefreshOutcome.ok newSkus,
          { lastSkuCheckTime := some now, cachedSkus := newSkus,
            skuToNameMap := apiProducts },
          [REvent.refreshStart forceCheck, REvent.catalogList apiProducts,
            REvent.refreshOk forceCheck])
      else
        (RefreshOutcome.exited, { s with skuToNameMap := apiProducts },
          [REvent.refreshStart forceCheck, REvent.catalogList apiProducts]
            ++ hm.2 ++ [REvent.exitLog])
  else
    (RefreshOutcome.ok s.cachedSkus, s, [])

/-- The initial SKU check of main (50check.py lines 706-711): forced refresh;
if it raises (or the mismatch path exits), monitoring never starts. -/
def mainInitialResolve (cfg : AppConfig) (cards : List (String × Bool))
    (selected : List String) (fetch : CatalogFetch) (now : Nat) (s : ResolverState) :
    Option (List String) :=
  match (getSkusIfNeeded cfg cards selected fetch now true s).1 with
  | RefreshOutcome.ok skus => some skus
  | _ => none

/-- The poller's module-global state in 50check.py: `last_stock_status`,
the request counters, last-check fields and status-update timestamps. -/
structure PollState where
  lastStockStatus : List (String × Bool)
  successfulRequests : Nat
  failedRequests : Nat
  lastCheckTime : Option Nat
  lastCheckSuccess : Bool
  lastConsoleStatusTime : Nat
  lastTelegramStatusTime : Nat
deriving DecidableEq, Repr

/-- Lookup in an association list, mirroring Python dict lookup. -/
def lookupA : List (String × Bool) → String → Option Bool
  | [], _ => none
  | p :: t, k => if p.1 = k then some p.2 else lookupA t k

/-- Python dict assignment on an association list: overwrite in place if the
key exists, else append. -/
def updateAssoc : List (String × Bool) → String → Bool → List (String × Bool)
  | [], k, v => [(k, v)]
  | p :: t, k, v => if p.1 = k then (k, v) :: t else p :: updateAssoc t k v

/-- Result of one per-SKU inventory request in check_nvidia_stock:
failure is a requests exception (HTTP error, timeout, malformed body);
badShape is a 200 response without a well-formed "listMap" list; emptyList is
`listMap == []`; item carries the single record's fields (`is_active` is the
raw string compared against "true"; productUrl is `item.get("product_url")`
before the `or NVIDIA_BASE_URL` fallback). -/
inductive StockFetch
  | failure
  | badShape
  | emptyList
  | item (feSku isActiveStr price : String) (productUrl : Option String)
deriving DecidableEq, Repr

/-- Python `item.get("product_url") or NVIDIA_BASE_URL`: None or the empty
string fall back to the base URL. -/
def urlOr (u : Option String) (base : String) : String :=
  match u with
  | none => base
  | some s => if s = "" then base else s

/-- Events emitted by one call of check_nvidia_stock, in program order. -/
inductive PEvent
  | consoleStatus
  | telegramStatus
  | checkLog (sku : String)
  | request (sku : String)
  | stockLog (sku : String) (active : Bool)
  | dispatchCall (sku price url : String) (inStock : Bool)
  | soundPlayed
  | telegramAlert (sku : String) (inStock : Bool)
  | ntfyAlert (sku : String) (inStock : Bool)
  | transitionLog (sku : String) (active : Bool)
  | notInSystem (sku : String)
  | waitP (secs : Nat)
  | requestFailed (sku : String)
deriving DecidableEq, Repr

/-- Result of dispatch_stock_notifications: either the events it performed,
or a TypeError raised part-way (50check.py line 353 calls `open_browser()`
although open_browser, line 401, requires a product_url argument; the events
already performed before the raise are carried along). -/
inductive DispatchResult
  | done (events : List PEvent)
  | typeError (events : List PEvent)
deriving DecidableEq, Repr

/-- dispatch_stock_notifications (50check.py lines 346-360).  If in stock and
browser opening is enabled, the zero-argument call of open_browser raises
TypeError before any notification goes out; otherwise it optionally plays the
sound and invokes the Telegram and ntfy senders (which catch their own
errors). -/
def dispatchStockNotifications (cfg : AppConfig) (running : Bool)
    (sku price productUrl : String) (inStock : Bool) : DispatchResult :=
  if !running then DispatchResult.done []
  else if inStock && cfg.notif.openBrowser then
    DispatchResult.typeError []
  else
    DispatchResult.done
      ((if inStock && cfg.notif.playSound then [PEvent.soundPlayed] else [])
        ++ (if cfg.telegramEnabled then [PEvent.telegramAlert sku inStock] else [])
        ++ (if cfg.ntfyEnabled then [PEvent.ntfyAlert sku inStock] else []))

/-- Whether the per-SKU iteration finished normally or was aborted by an
exception that the RequestException handler does not catch. -/
inductive StepOutcome
  | normal
  | crashed
deriving DecidableEq, Repr

/-- The body of check_nvidia_stock's per-SKU loop (50check.py lines 513-566)
for one SKU: fetch, update counters, detect a transition with
`api_sku not in last_stock_status or last_stock_status[api_sku] != is_active
or product_url != NVIDIA_BASE_URL`, update the state before dispatching, run
dispatch (which may raise TypeError), cooldown-sleep when in stock, then the
1-second inter-request sleep.  A RequestException increments the failure
counter and continues; the except branch performs no sleep. -/
def processSku (cfg : AppConfig) (running : Bool) (fetch : String → StockFetch)
    (now : Nat) (sku : String) (s : PollState) :
    List PEvent × PollState × StepOutcome :=
  let checkEvts := if cfg.notif.logStockChecks then [PEvent.checkLog sku] else []
  match fetch sku with
  | StockFetch.failure =>
    (checkEvts ++ [PEvent.request sku, PEvent.requestFailed sku],
      { s with failedRequests := s.failedRequests + 1, lastCheckSuccess := false,
               lastCheckTime := some now },
      StepOutcome.normal)
  | StockFetch.badShape =>
    (checkEvts ++ [PEvent.request sku] ++ (if running then [PEvent.waitP 1] else []),
      { s with successfulRequests := s.successfulRequests + 1, lastCheckSuccess := true,
               lastCheckTime := some now },
      StepOutcome.normal)
  | StockFetch.emptyList =>
    (checkEvts ++ [PEvent.request sku]
        ++ (if cfg.notif.logStockChecks then [PEvent.notInSystem sku] else [])
        ++ (if running then [PEvent.waitP 1] else []),
      { s with successfulRequests := s.successfulRequests + 1, lastCheckSuccess := true,
               lastCheckTime := some now },
      StepOutcome.normal)
  | StockFetch.item feSku isActiveStr price productUrl =>
    let isActive := isActiveStr == "true"
    let url := urlOr productUrl cfg.baseUrl
    let s1 := { s with successfulRequests := s.successfulRequests + 1,
                       lastCheckSuccess := true, lastCheckTime := some now }
    let obsEvts := if cfg.notif.logStockChecks then [PEvent.stockLog sku isActive] else []
    let transition :=
      match lookupA s1.lastStockStatus feSku with
      | none => true
      | some v => decide (v ≠ isActive) || decide (url ≠ cfg.baseUrl)
    if transition then
      let s2 := { s1 with lastStockStatus := updateAssoc s1.lastStockStatus feSku isActive }
      match dispatchStockNotifications cfg running sku price url isActive with
      | DispatchResult.typeError de =>
        (checkEvts ++ [PEvent.request sku] ++ obsEvts
            ++ [PEvent.dispatchCall sku price url isActive] ++ de,
          s2, StepOutcome.crashed)
      | DispatchResult.done de =>
        (checkEvts ++ [PEvent.request sku] ++ obsEvts
            ++ [PEvent.dispatchCall sku price url isActive] ++ de
            ++ (if cfg.notif.logStockChecks then [PEvent.transitionLog sku isActive] else [])
            ++ (if isActive then [PEvent.waitP cfg.cooldown] else [])
            ++ (if running then [PEvent.waitP 1] else []),
          s2, StepOutcome.normal)
    else
      (checkEvts ++ [PEvent.request sku] ++ obsEvts
          ++ (if running then [PEvent.waitP 1] else []),
        s1, StepOutcome.normal)

/-- The per-SKU loop of check_nvidia_stock over a SKU list: stop early when
not running; an uncaught exception in one step aborts the remaining SKUs. -/
def checkSkus (cfg : AppConfig) (running : Bool) (fetch : String → StockFetch)
    (now : Nat) : List String → PollState → List PEvent × PollState × StepOutcome
  | [], s => ([], s, StepOutcome.normal)
  | sku :: rest, s =>
    if !running then ([], s, StepOutcome.normal)
    else
      let r := processSku cfg running fetch now sku s
      match r.2.2 with
      | StepOutcome.normal =>
        let r2 := checkSkus cfg running fetch now rest r.2.1
        (r.1 ++ r2.1, r2.2.1, r2.2.2)
      | StepOutcome.crashed => r

/-- The status-update preamble of check_nvidia_stock (50check.py lines
499-507 with send_console_status and send_telegram_status): each channel
fires when enabled and its interval (measured with `.seconds`) has elapsed;
the Telegram sender additionally requires Telegram to be enabled before it
touches its timestamp. -/
def statusPreamble (cfg : AppConfig) (now : Nat) (s : PollState) :
    List PEvent × PollState :=
  if cfg.consoleStatus.enabled
      && decide (pySeconds (now - s.lastConsoleStatusTime) ≥ cfg.consoleStatus.interval) then
    if cfg.telegramStatus.enabled
        && decide (pySeconds (now - s.lastTelegramStatusTime) ≥ cfg.telegramStatus.interval)
        && cfg.telegramEnabled then
      ([PEvent.consoleStatus, PEvent.telegramStatus],
        { s with lastConsoleStatusTime := now, lastTelegramStatusTime := now })
    else ([PEvent.consoleStatus], { s with lastConsoleStatusTime := now })
  else
    if cfg.telegramStatus.enabled
        && decide (pySeconds (now - s.lastTelegramStatusTime) ≥ cfg.telegramStatus.interval)
        && cfg.telegramEnabled then
      ([PEvent.telegramStatus], { s with lastTelegramStatusTime := now })
    else ([], s)

/-- check_nvidia_stock (50check.py lines 490-566): early return when not
running, status-update preamble, then the per-SKU loop. -/
def checkNvidiaStock (cfg : AppConfig) (running : Bool) (fetch : String → StockFetch)
    (now : Nat) (skus : List String) (s : PollState) :
    List PEvent × PollState × StepOutcome :=
  if !running then ([], s, StepOutcome.normal)
  else
    let pre := statusPreamble cfg now s
    let r := checkSkus cfg running fetch now skus pre.2
    (pre.1 ++ r.1, r.2.1, r.2.2)

/-- A notification handler as the NotificationManager sees it
(src/handlers/__init__.py): its class name and what each awaited call does —
return normally or raise with a message. -/
structure Handler where
  name : String
  initResult : Except String Bool
  alertResult : Except String Unit
  statusResult : Except String Unit
deriving Repr

/-- Events of the notification manager: a delivery attempt on one handler,
and the catch-and-log of each kind of failure. -/
inductive HEvent
  | attempt (name : String)
  | statusAttempt (name : String)
  | errLogged (msg : String)
  | statusErrLogged (name msg : String)
  | initFailLogged (name msg : String)
deriving DecidableEq, Repr

/-- NotificationManager.initialize_handlers (handlers/__init__.py lines
66-75): keep the handlers whose initialize() returned True; a raising
initialize is caught and logged; the rest are still initialized. -/
def initHandlers : List Handler → List Handler × List HEvent
  | [] => ([], [])
  | h :: t =>
    let rest := initHandlers t
    match h.initResult with
    | Except.ok true => (h :: rest.1, rest.2)
    | Except.ok false => (rest.1, rest.2)
    | Except.error e => (rest.1, HEvent.initFailLogged h.name e :: rest.2)

/-- NotificationManager.send_stock_alert (handlers/__init__.py lines 85-95):
asyncio.gather with return_exceptions=True starts every handler's send, then
each collected exception is logged (without the handler's name, via
traceback). -/
def sendStockAlert (hs : List Handler) : List HEvent :=
  (hs.map (fun h => HEvent.attempt h.name))
    ++ hs.filterMap (fun h =>
        match h.alertResult with
        | Except.error e => some (HEvent.errLogged e)
        | Except.ok _ => none)

/-- NotificationManager.send_status_update (handlers/__init__.py lines
97-103): sequential loop, each handler's exception caught and logged with the
handler's class name, then the loop continues. -/
def sendStatusUpdate (hs : List Handler) : List HEvent :=
  (hs.map (fun h =>
    HEvent.statusAttempt h.name ::
      (match h.statusResult with
       | Except.error e => [HEvent.statusErrLogged h.name e]
       | Except.ok _ => []))).flatten

/-- Recognizer for dispatch-call events (stock-alert dispatches). -/
def isDispatchCall : PEvent → Bool
  | PEvent.dispatchCall _ _ _ _ => true
  | _ => false

/-- Number of stock-alert dispatches in a poll trace. -/
def countDispatch (evts : List PEvent) : Nat := evts.countP isDispatchCall

/-- Recognizer for mismatch-warning notifications in a refresh trace. -/
def isMismatchWarning : REvent → Bool
  | REvent.mismatchWarning _ _ => true
  | _ => false

/-- Recognizer for SKU-changed events in a refresh trace. -/
def isSkuChanged : REvent → Bool
  | REvent.skuChanged _ _ _ => true
  | _ => false

/-- A minimal concrete configuration used by concrete evaluations: sound,
browser and per-check logging off, status updates off, Telegram on, ntfy off,
cooldown 120 s, check interval 10 s, SKU-cache interval 3600 s. -/
def cfgQuiet : AppConfig :=
  { notif := { playSound := false, openBrowser := false, logStockChecks := false },
    consoleStatus := { enabled := false, interval := 900 },
    telegramStatus := { enabled := false, interval := 1800 },
    telegramEnabled := true, ntfyEnabled := false,
    cooldown := 120, checkInterval := 10, skuCheckInterval := 3600,
    baseUrl := "BASE" }

/-- cfgQuiet with the default NOTIFICATION_CONFIG of config.py
(play_sound and open_browser both on). -/
def cfgDefaultNotif : AppConfig :=
  { cfgQuiet with notif := { playSound := true, openBrowser := true, logStockChecks := false } }

/-- The poller state right after init_globals. -/
def pollInit : PollState :=
  { lastStockStatus := [], successfulRequests := 0, failedRequests := 0,
    lastCheckTime := none, lastCheckSuccess := true,
    lastConsoleStatusTime := 0, lastTelegramStatusTime := 0 }

/-- The resolver state right after init_globals. -/
def resolverInit : ResolverState :=
  { lastSkuCheckTime := none, cachedSkus := [], skuToNameMap := [] }

/-- A vendor inventory response whose item has a concrete product_url,
distinct from the base URL, and is out of stock; identical on every call. -/
def fetchWithUrl : String → StockFetch :=
  fun _ => StockFetch.item "S" "false" "9" (some "URL")

/-- Two enabled configured cards "A" and "B"; the fetched catalog contains a
match for "A" only, so the mismatch is partial. -/
def cardsAB : List (String × Bool) := [("A", true), ("B", true)]

/-- Resolver state holding the previous refresh result: SKU1 resolved for the
configured card "RTX 5090" at time 0. -/
def resolverSku1 : ResolverState :=
  { lastSkuCheckTime := some 0, cachedSkus := ["SKU1"],
    skuToNameMap := [("SKU1", "RTX 5090")] }

/-- Inventory responses for the C7 scenario: every SKU reports in stock with
a concrete product URL. -/
def fetchInStock : String → StockFetch :=
  fun sku => StockFetch.item sku "true" "9.99" (some "http://u")

/-- Resolver state for the C9 scenario: one prior successful refresh at time
0 with cached SKU list ["SKU1"]. -/
def resolverDayOld : ResolverState :=
  { lastSkuCheckTime := some 0, cachedSkus := ["SKU1"], skuToNameMap := [("SKU1", "N")] }

/-- cfgQuiet with a 10 s SKU-cache interval. -/
def cfgShortSku : AppConfig := { cfgQuiet with skuCheckInterval := 10 }

/-- Inventory fetch that always fails (requests exception). -/
def fetchFail : String → StockFetch := fun _ => StockFetch.failure

/-- Inventory response with no product_url, so the URL falls back to the
base URL; the item is out of stock and identical on every call. -/
def fetchNoUrl : String → StockFetch := fun _ => StockFetch.item "S" "false" "9" none

/-- Recognizer for stock-alert attempt events. -/
def isAttemptEvent : HEvent → Bool
  | HEvent.attempt _ => true
  | _ => false

/-- Recognizer for status-update attempt events. -/
def isStatusAttemptEvent : HEvent → Bool
  | HEvent.statusAttempt _ => true
  | _ => false

/-- A handler whose calls all succeed. -/
def handlerGood : Handler :=
  { name := "console", initResult := Except.ok true,
    alertResult := Except.ok (), statusResult := Except.ok () }

/-- A handler whose send methods raise. -/
def handlerBad : Handler :=
  { name := "telegram", initResult := Except.ok true,
    alertResult := Except.error "boom", statusResult := Except.error "boom" }

/-- Configured cards for the name-matching scenarios: two enabled, one
disabled. -/
def cardsMatching : List (String × Bool) :=
  [("RTX 5090", true), ("RTX 5099", true), ("RTX 5080", false)]

/-- Catalog for the name-matching scenarios: two entries whose display names
contain "RTX 5090", one entry for the disabled card, none for "RTX 5099". -/
def apiMatching : List (String × String) :=
  [("SKU1", "NVIDIA RTX 5090 FE"), ("SKU2", "RTX 5090 OC"), ("SKU3", "RTX 5080")]

theorem isPrefixOf_self (l : List Char) : l.isPrefixOf l = true := by
  induction l with
  | nil => rfl
  | cons c t ih => simp [List.isPrefixOf, ih]

theorem subChars_self (l : List Char) : subChars l l = true := by
  cases l with
  | nil => rfl
  | cons c t => simp [subChars, isPrefixOf_self]

theorem pyIn_self (s : String) : pyIn s s = true := subChars_self s.toList

theorem lookupA_updateAssoc (m : List (String × Bool)) (k : String) (v : Bool) :
    lookupA (updateAssoc m k v) k = some v := by
  induction m with
  | nil => simp [updateAssoc, lookupA]
  | cons p t ih =>
    by_cases h : p.1 = k
    · simp [updateAssoc, lookupA, h]
    · simp [updateAssoc, lookupA, h, ih]

theorem countWarn_warnIter (cfg : AppConfig) (missing : List String) (n : Nat) :
    (warnIter cfg missing n).countP isMismatchWarning = n := by
  induction n with
  | zero => rfl
  | succ m ih =>
    simp only [warnIter, List.countP_append, ih]
    have h1 : (if cfg.notif.playSound then [REvent.mismatchSound] else
        ([] : List REvent)).countP isMismatchWarning = 0 := by
      split <;> rfl
    have h2 : (if cfg.telegramEnabled then [REvent.mismatchTelegram (m + 1)] else
        ([] : List REvent)).countP isMismatchWarning = 0 := by
      split <;> rfl
    have h3 : (if m > 0 then [REvent.waitR 300] else
        ([] : List REvent)).countP isMismatchWarning = 0 := by
      split <;> rfl
    simp [h1, h2, h3, List.countP_cons, isMismatchWarning]
    omega

theorem countSkuChanged_warnIter (cfg : AppConfig) (missing : List String) (n : Nat) :
    (warnIter cfg missing n).countP isSkuChanged = 0 := by
  induction n with
  | zero => rfl
  | succ m ih =>
    simp only [warnIter, List.countP_append, ih]
    have h1 : (if cfg.notif.playSound then [REvent.mismatchSound] else
        ([] : List REvent)).countP isSkuChanged = 0 := by
      split <;> rfl
    have h2 : (if cfg.telegramEnabled then [REvent.mismatchTelegram (m + 1)] else
        ([] : List REvent)).countP isSkuChanged = 0 := by
      split <;> rfl
    have h3 : (if m > 0 then [REvent.waitR 300] else
        ([] : List REvent)).countP isSkuChanged = 0 := by
      split <;> rfl
    simp [h1, h2, h3, List.countP_cons, isSkuChanged]

/-- No execution path of the resolver ever emits a SKU-changed event. -/
theorem countSkuChanged_getSkus (cfg : AppConfig) (cards : List (String × Bool))
    (selected : List String) (fetch : CatalogFetch) (now : Nat) (forceCheck : Bool)
    (s : ResolverState) :
    ((getSkusIfNeeded cfg cards selected fetch now forceCheck s).2.2).countP
      isSkuChanged = 0 := by
  unfold getSkusIfNeeded
  split
  · split
    · split <;> rfl
    · simp only [handleProductMismatch]
      split
      · rfl
      · simp [List.countP_append, countSkuChanged_warnIter, List.countP_cons, isSkuChanged]
  · rfl

/-- Claim C2, amended theorem.  Whenever a due catalog refresh finds ANY
configured, enabled products missing from the fetched catalog — some or all —
the resolver emits five diagnostic warning notifications and then the process
exits; it does not continue monitoring the products that did resolve. -/
theorem c2_any_mismatch_exits (cfg : AppConfig) (cards : List (String × Bool))
    (selected : List String) (api : List (String × String)) (now : Nat) (force : Bool)
    (s : ResolverState)
    (hNeed : needsUpdate force s.lastSkuCheckTime now cfg.skuCheckInterval = true)
    (hmiss : missingProducts api selected ≠ []) :
    (getSkusIfNeeded cfg cards selected (CatalogFetch.success api) now force s).1
        = RefreshOutcome.exited
      ∧ ((getSkusIfNeeded cfg cards selected (CatalogFetch.success api) now force
          s).2.2).countP isMismatchWarning = 5 := by
  have hne : (missingProducts api selected).isEmpty = false := by
    cases h : missingProducts api selected with
    | nil => exact absurd h hmiss
    | cons a t => rfl
  refine ⟨?_, ?_⟩ <;>
    simp [getSkusIfNeeded, hNeed, handleProductMismatch, hne, List.countP_append,
      countWarn_warnIter, List.countP_cons, isMismatchWarning]

/-- Witness for c2_any_mismatch_exits at the concrete partial mismatch
(cards "A" and "B" configured, only "A" present in the catalog). -/
theorem c2_any_mismatch_exits_witness :
    (getSkusIfNeeded cfgQuiet cardsAB ["A", "B"]
        (CatalogFetch.success [("S1", "A card")]) 0 true resolverInit).1
      = RefreshOutcome.exited
    ∧ ((getSkusIfNeeded cfgQuiet cardsAB ["A", "B"]
        (CatalogFetch.success [("S1", "A card")]) 0 true resolverInit).2.2).countP
        isMismatchWarning = 5 :=
  c2_any_mismatch_exits cfgQuiet cardsAB ["A", "B"] [("S1", "A card")] 0 true
    resolverInit rfl (by decide)

theorem find?_mem_of_pred {α : Type} (p : α → Bool) (l : List α) (a : α)
    (ha : a ∈ l) (hp : p a = true) :
    ∃ b, l.find? p = some b ∧ p b = true ∧ b ∈ l := by
  induction l with
  | nil => cases ha
  | cons x t ih =>
    by_cases hx : p x = true
    · exact ⟨x, by simp [List.find?_cons, hx], hx, List.mem_cons_self x t⟩
    · have hx2 : p x = false := by revert hx; cases p x <;> simp
      rcases List.mem_cons.mp ha with h | hat
      · exact absurd (h ▸ hp) hx
      · rcases ih hat with ⟨b, hf, hpb, hbm⟩
        exact ⟨b, by simp [List.find?_cons, hx2, hf], hpb, List.mem_cons_of_mem x hbm⟩

theorem contains_of_mem (l : List String) (x : String) (h : x ∈ l) :
    l.contains x = true := by
  induction l with
  | nil => cases h
  | cons a t ih =>
    rcases List.mem_cons.mp h with rfl | hat
    · simp [List.contains_cons]
    · simp only [List.contains_cons, Bool.or_eq_true, beq_iff_eq]
      exact Or.inr (ih hat)

/-- Membership form of the enabled-SKU filter: an API entry whose display
name has a matching enabled card lying in selected_cards contributes its SKU
to the refreshed list. -/
theorem mem_enabledSkus_of_entry (cards : List (String × Bool)) (selected : List String)
    (api : List (String × String)) (entry : String × String) (c : String × Bool)
    (hmem : entry ∈ api) (hc : c ∈ cards) (hcEn : c.2 = true)
    (hmatch : pyIn (pyLower c.1) (pyLower entry.2) = true)
    (hsel : selected = (cards.filter (fun x => x.2)).map (fun x => x.1)) :
    entry.1 ∈ enabledSkus cards selected api := by
  have hq : (fun x : String × Bool => pyIn (pyLower x.1) (pyLower entry.2) && x.2) c
      = true := by
    simp [hmatch, hcEn]
  rcases find?_mem_of_pred (fun x : String × Bool => pyIn (pyLower x.1) (pyLower entry.2) && x.2)
    cards c hc hq with ⟨b, hf, hpb, hbm⟩
  have hb2 : b.2 = true := by
    have hsplit := hpb
    simp only [Bool.and_eq_true] at hsplit
    exact hsplit.2
  have hmc : matchingCard cards entry.2 = some b.1 := by
    simp [matchingCard, hf]
  have hbsel : b.1 ∈ selected := by
    rw [hsel]
    exact List.mem_map.mpr ⟨b, List.mem_filter.mpr ⟨hbm, hb2⟩, rfl⟩
  have hpred : (match matchingCard cards entry.2 with
      | some card => selected.contains card
      | none => false) = true := by
    rw [hmc]
    exact contains_of_mem selected b.1 hbsel
  exact List.mem_map.mpr ⟨entry, List.mem_filter.mpr ⟨hmem, hpred⟩, rfl⟩

/-- Every SKU in the refreshed list comes from the fetched catalog. -/
theorem enabledSkus_subset_api (cards : List (String × Bool)) (selected : List String)
    (api : List (String × String)) (sku : String)
    (h : sku ∈ enabledSkus cards selected api) : sku ∈ api.map Prod.fst := by
  rcases List.mem_map.mp h with ⟨pr, hpr, hfst⟩
  exact List.mem_map.mpr ⟨pr, (List.mem_filter.mp hpr).1, hfst⟩

/-- Claim C1, counterexample.  One SKU "S", identical successful responses on
two consecutive poll calls, and the item carries a product_url ("URL")
different from the base URL.  The claim requires one dispatch on the first
call and zero on the second; the code dispatches on the second call as well,
because the transition test (50check.py line 541) also fires whenever
`product_url != NVIDIA_BASE_URL`, independently of any state change. -/
theorem c1_counterexample :
    countDispatch (checkNvidiaStock cfgQuiet true fetchWithUrl 0 ["S"] pollInit).1 = 1
      ∧ countDispatch (checkNvidiaStock cfgQuiet true fetchWithUrl 5 ["S"]
          (checkNvidiaStock cfgQuiet true fetchWithUrl 0 ["S"] pollInit).2.1).1 = 1 := by
  exact ⟨rfl, rfl⟩


/-- Claim C2, counterexample.  A partial catalog mismatch (card "B" missing,
card "A" present) makes get_skus_if_needed exit the process
(handle_product_mismatch returns False after its warning rounds and the
caller calls sys.exit(1), 50check.py lines 460-464); monitoring does not
continue for the product that did resolve. -/
theorem c2_counterexample :
    missingProducts [("S1", "A card")] ["A", "B"] = ["B"]
      ∧ (getSkusIfNeeded cfgQuiet cardsAB ["A", "B"]
          (CatalogFetch.success [("S1", "A card")]) 0 true resolverInit).1
        = RefreshOutcome.exited := by
  exact ⟨by decide, by decide⟩


/-- Claim C3, counterexample.  The cached SKU "SKU1" is absent from the new
catalog, whose entry ("SKU2", "RTX 5090") carries exactly the configured
display name.  The refresh reassigns (returns ["SKU2"]) and classifies
nothing as missing, but it emits zero "SKU changed" events, not exactly one:
no such event exists anywhere in get_skus_if_needed. -/
theorem c3_counterexample :
    ("SKU1" ∈ (List.map Prod.fst [(("SKU2" : String), ("RTX 5090" : String))]) → False)
      ∧ (getSkusIfNeeded cfgQuiet [("RTX 5090", true)] ["RTX 5090"]
          (CatalogFetch.success [("SKU2", "RTX 5090")]) 7200 false resolverSku1).1
        = RefreshOutcome.ok ["SKU2"]
      ∧ missingProducts [("SKU2", "RTX 5090")] ["RTX 5090"] = []
      ∧ ((getSkusIfNeeded cfgQuiet [("RTX 5090", true)] ["RTX 5090"]
          (CatalogFetch.success [("SKU2", "RTX 5090")]) 7200 false resolverSku1).2.2).countP
          isSkuChanged = 0 := by
  refine ⟨by decide, by decide, by decide, by decide⟩

/-- Claim C5, code_bug evaluation.  With the last successful refresh at time
0 and the default 3600 s refresh interval, a non-forced resolver call 86400 s
(one day) later performs no catalog fetch at all — needs_update is computed
from `timedelta.seconds` (elapsed mod 86400), which is 0 here — although
86400 ≥ 3600, so by the claim a fetch is due.  The resolver just returns the
cache with an empty event trace. -/
theorem c5_stale_cache_kept :
    (86400 - 0 ≥ cfgQuiet.skuCheckInterval)
      ∧ needsUpdate false (some 0) 86400 cfgQuiet.skuCheckInterval = false
      ∧ getSkusIfNeeded cfgQuiet [("N", true)] ["N"]
          (CatalogFetch.success [("SKU2", "N")]) 86400 false
          { lastSkuCheckTime := some 0, cachedSkus := ["SKU1"],
            skuToNameMap := [("SKU1", "N")] }
        = (RefreshOutcome.ok ["SKU1"],
            { lastSkuCheckTime := some 0, cachedSkus := ["SKU1"],
              skuToNameMap := [("SKU1", "N")] }, []) := by
  exact ⟨by decide, rfl, rfl⟩


/-- Claim C7, code_bug evaluation.  Under the default NOTIFICATION_CONFIG
(open_browser = True), the first in-stock transition makes
dispatch_stock_notifications call `open_browser()` without the product_url
argument that open_browser requires (50check.py lines 353 and 401), raising
TypeError.  The per-SKU handler catches only RequestException, so the poll
call aborts: the dispatch is entered once, but no sound or channel send
happens, the cooldown sleep never runs, and the second SKU is never
requested in that tick. -/
theorem c7_cooldown_skipped_on_crash :
    (checkNvidiaStock cfgDefaultNotif true fetchInStock 0 ["S1", "S2"] pollInit).2.2
        = StepOutcome.crashed
      ∧ countDispatch (checkNvidiaStock cfgDefaultNotif true fetchInStock 0
          ["S1", "S2"] pollInit).1 = 1
      ∧ ((PEvent.waitP cfgDefaultNotif.cooldown)
          ∈ (checkNvidiaStock cfgDefaultNotif true fetchInStock 0 ["S1", "S2"] pollInit).1
            → False)
      ∧ ((PEvent.request "S2")
          ∈ (checkNvidiaStock cfgDefaultNotif true fetchInStock 0 ["S1", "S2"] pollInit).1
            → False)
      ∧ (PEvent.soundPlayed
          ∈ (checkNvidiaStock cfgDefaultNotif true fetchInStock 0 ["S1", "S2"] pollInit).1
            → False) := by
  refine ⟨rfl, rfl, by decide, by decide, by decide⟩


/-- Claim C9, code_bug evaluation.  A refresh attempt at elapsed 86399 s
fails; the cached list and last-refresh time are indeed left exactly as
before (error atomicity holds).  But on the very next resolver call, at
elapsed 86405 s with a catalog fetch that would succeed, no retry happens:
`timedelta.seconds` has wrapped past the day boundary (86405 mod 86400 = 5 <
10), so needs_update is false and the resolver returns the cache with no
events, although 86405 ≥ 10 seconds have elapsed since the last success. -/
theorem c9_no_retry_after_day_wrap :
    getSkusIfNeeded cfgShortSku [("N", true)] ["N"] CatalogFetch.failure 86399 false
        resolverDayOld
      = (RefreshOutcome.ok ["SKU1"], resolverDayOld,
          [REvent.refreshStart false, REvent.refreshFailed])
      ∧ (86405 - 0 ≥ cfgShortSku.skuCheckInterval)
      ∧ getSkusIfNeeded cfgShortSku [("N", true)] ["N"]
          (CatalogFetch.success [("SKU2", "N")]) 86405 false resolverDayOld
        = (RefreshOutcome.ok ["SKU1"], resolverDayOld, []) := by
  exact ⟨rfl, by decide, rfl⟩

/-- Claim C3, amended theorem.  When a due refresh fetches a catalog that
contains an entry (newSku, pname) whose display name equals the configured
enabled product pname exactly, and no configured product is missing, the
refresh completes and reassigns: the new cached list contains newSku, any SKU
absent from the catalog (such as the vanished old one) is not in the list,
pname is not classified as missing, and no "SKU changed" event is emitted —
the code has no such event; the reassignment happens only implicitly because
the SKU list is recomputed from display names on every refresh. -/
theorem c3_reassign_no_event (cfg : AppConfig) (cards : List (String × Bool))
    (selected : List String) (api : List (String × String)) (now : Nat)
    (force : Bool) (s : ResolverState) (newSku pname oldSku : String)
    (hsel : selected = (cards.filter (fun x => x.2)).map (fun x => x.1))
    (hmem : (newSku, pname) ∈ api)
    (hcard : (pname, true) ∈ cards)
    (hold : oldSku ∉ api.map Prod.fst)
    (hnomiss : missingProducts api selected = [])
    (hNeed : needsUpdate force s.lastSkuCheckTime now cfg.skuCheckInterval = true) :
    pname ∉ missingProducts api selected
    ∧ newSku ∈ enabledSkus cards selected api
    ∧ oldSku ∉ enabledSkus cards selected api
    ∧ (getSkusIfNeeded cfg cards selected (CatalogFetch.success api) now force s).1
        = RefreshOutcome.ok (enabledSkus cards selected api)
    ∧ (getSkusIfNeeded cfg cards selected (CatalogFetch.success api) now force
        s).2.1.cachedSkus = enabledSkus cards selected api
    ∧ ((getSkusIfNeeded cfg cards selected (CatalogFetch.success api) now force
        s).2.2).countP isSkuChanged = 0 := by
  have hne : (missingProducts api selected).isEmpty = true := by rw [hnomiss]; rfl
  refine ⟨by rw [hnomiss]; simp, ?_, ?_, ?_, ?_, countSkuChanged_getSkus _ _ _ _ _ _ _⟩
  · exact mem_enabledSkus_of_entry cards selected api (newSku, pname) (pname, true)
      hmem hcard rfl (pyIn_self (pyLower pname)) hsel
  · intro hcontra
    exact hold (enabledSkus_subset_api cards selected api oldSku hcontra)
  · simp [getSkusIfNeeded, hNeed, handleProductMismatch, hne]
  · simp [getSkusIfNeeded, hNeed, handleProductMismatch, hne]

/-- Witness for c3_reassign_no_event at the concrete SKU-reassignment
scenario: cached SKU1 vanished, the catalog maps SKU2 to the exact configured
name "RTX 5090". -/
theorem c3_reassign_no_event_witness :
    "RTX 5090" ∉ missingProducts [("SKU2", "RTX 5090")] ["RTX 5090"]
    ∧ "SKU2" ∈ enabledSkus [("RTX 5090", true)] ["RTX 5090"] [("SKU2", "RTX 5090")]
    ∧ "SKU1" ∉ enabledSkus [("RTX 5090", true)] ["RTX 5090"] [("SKU2", "RTX 5090")]
    ∧ (getSkusIfNeeded cfgQuiet [("RTX 5090", true)] ["RTX 5090"]
        (CatalogFetch.success [("SKU2", "RTX 5090")]) 7200 false resolverSku1).1
      = RefreshOutcome.ok
          (enabledSkus [("RTX 5090", true)] ["RTX 5090"] [("SKU2", "RTX 5090")])
    ∧ (getSkusIfNeeded cfgQuiet [("RTX 5090", true)] ["RTX 5090"]
        (CatalogFetch.success [("SKU2", "RTX 5090")]) 7200 false
        resolverSku1).2.1.cachedSkus
      = enabledSkus [("RTX 5090", true)] ["RTX 5090"] [("SKU2", "RTX 5090")]
    ∧ ((getSkusIfNeeded cfgQuiet [("RTX 5090", true)] ["RTX 5090"]
        (CatalogFetch.success [("SKU2", "RTX 5090")]) 7200 false
        resolverSku1).2.2).countP isSkuChanged = 0 :=
  c3_reassign_no_event cfgQuiet [("RTX 5090", true)] ["RTX 5090"]
    [("SKU2", "RTX 5090")] 7200 false resolverSku1 "SKU2" "RTX 5090" "SKU1"
    (by decide) (by decide) (by decide) (by decide) (by decide) (by decide)

/-- Claim C4, theorem.  When a due refresh's catalog fetch raises: with a
previously cached non-empty SKU list, the resolver returns that cached list,
does not propagate the exception, and leaves its state untouched; with no
cached list (the mandatory initial resolution), the exception propagates
(outcome raised) and main never obtains an initial SKU set, so monitoring
does not start. -/
theorem c4_failure_fallback (cfg : AppConfig) (cards : List (String × Bool))
    (selected : List String) (now : Nat) (force : Bool) (s : ResolverState)
    (hNeed : needsUpdate force s.lastSkuCheckTime now cfg.skuCheckInterval = true) :
    (s.cachedSkus ≠ [] →
        (getSkusIfNeeded cfg cards selected CatalogFetch.failure now force s).1
            = RefreshOutcome.ok s.cachedSkus
          ∧ (getSkusIfNeeded cfg cards selected CatalogFetch.failure now force s).2.1
            = s)
    ∧ (s.cachedSkus = [] →
        (getSkusIfNeeded cfg cards selected CatalogFetch.failure now force s).1
            = RefreshOutcome.raised
          ∧ mainInitialResolve cfg cards selected CatalogFetch.failure now s
            = none) := by
  constructor
  · intro hne
    have h2 : s.cachedSkus.isEmpty = false := by
      cases h : s.cachedSkus with
      | nil => exact absurd h hne
      | cons a t => rfl
    constructor <;> simp [getSkusIfNeeded, hNeed, h2]
  · intro he
    have h2 : s.cachedSkus.isEmpty = true := by rw [he]; rfl
    refine ⟨by simp [getSkusIfNeeded, hNeed, h2], ?_⟩
    have hNeedF : needsUpdate true s.lastSkuCheckTime now cfg.skuCheckInterval
        = true := rfl
    simp [mainInitialResolve, getSkusIfNeeded, hNeedF, h2]

/-- Witness for c4_failure_fallback, exercising both branches: a failing
refresh with the non-empty cache ["SKU1"] serves the cache and keeps the
state; the failing initial resolution (empty cache) raises and main gets no
SKU set. -/
theorem c4_failure_fallback_witness :
    ((getSkusIfNeeded cfgQuiet cardsAB ["A", "B"] CatalogFetch.failure 7200 false
          resolverSku1).1 = RefreshOutcome.ok resolverSku1.cachedSkus
      ∧ (getSkusIfNeeded cfgQuiet cardsAB ["A", "B"] CatalogFetch.failure 7200 false
          resolverSku1).2.1 = resolverSku1)
    ∧ ((getSkusIfNeeded cfgQuiet cardsAB ["A", "B"] CatalogFetch.failure 0 true
          resolverInit).1 = RefreshOutcome.raised
      ∧ mainInitialResolve cfgQuiet cardsAB ["A", "B"] CatalogFetch.failure 0
          resolverInit = none) :=
  ⟨(c4_failure_fallback cfgQuiet cardsAB ["A", "B"] 7200 false resolverSku1
      (by decide)).1 (by decide),
   (c4_failure_fallback cfgQuiet cardsAB ["A", "B"] 0 true resolverInit
      (by decide)).2 rfl⟩

theorem statusPreamble_countDispatch (cfg : AppConfig) (now : Nat) (s : PollState) :
    countDispatch (statusPreamble cfg now s).1 = 0 := by
  unfold statusPreamble
  split_ifs <;> rfl

theorem statusPreamble_stock (cfg : AppConfig) (now : Nat) (s : PollState) :
    (statusPreamble cfg now s).2.lastStockStatus = s.lastStockStatus := by
  unfold statusPreamble
  split_ifs <;> rfl

theorem dispatch_done_count (cfg : AppConfig) (running : Bool)
    (sku price url : String) (inStock : Bool) (de : List PEvent)
    (h : dispatchStockNotifications cfg running sku price url inStock
      = DispatchResult.done de) : countDispatch de = 0 := by
  unfold dispatchStockNotifications at h
  split_ifs at h <;> first
    | (cases h; rfl)
    | simp at h

theorem dispatch_typeError_count (cfg : AppConfig) (running : Bool)
    (sku price url : String) (inStock : Bool) (de : List PEvent)
    (h : dispatchStockNotifications cfg running sku price url inStock
      = DispatchResult.typeError de) : countDispatch de = 0 := by
  unfold dispatchStockNotifications at h
  split_ifs at h <;> first
    | (cases h; rfl)
    | simp at h

/-- One per-SKU step on a SKU that is absent from the stock state: exactly
one stock-alert dispatch, and the SKU is recorded with the observed state
(whether or not the dispatch itself crashes on the browser bug). -/
theorem processSku_first_observation (cfg : AppConfig) (fetch : String → StockFetch)
    (now : Nat) (sku feSku act price : String) (uOpt : Option String) (s : PollState)
    (hf : fetch sku = StockFetch.item feSku act price uOpt)
    (habs : lookupA s.lastStockStatus feSku = none) :
    countDispatch (processSku cfg true fetch now sku s).1 = 1
    ∧ (processSku cfg true fetch now sku s).2.1.lastStockStatus
        = updateAssoc s.lastStockStatus feSku (act == "true") := by
  simp only [processSku, hf, habs]
  cases hd : dispatchStockNotifications cfg true sku price (urlOr uOpt cfg.baseUrl)
      (act == "true") with
  | done de =>
    have hde := dispatch_done_count cfg true sku price (urlOr uOpt cfg.baseUrl)
      (act == "true") de hd
    constructor
    · simp only [countDispatch] at hde
      cases hL : cfg.notif.logStockChecks <;> cases hA : (act == "true") <;>
        simp [hL, hA, countDispatch, List.countP_append, List.countP_cons,
          List.countP_nil, isDispatchCall, hde]
    · rfl
  | typeError de =>
    have hde := dispatch_typeError_count cfg true sku price (urlOr uOpt cfg.baseUrl)
      (act == "true") de hd
    constructor
    · simp only [countDispatch] at hde
      cases hL : cfg.notif.logStockChecks <;> cases hA : (act == "true") <;>
        simp [hL, hA, countDispatch, List.countP_append, List.countP_cons,
          List.countP_nil, isDispatchCall, hde]
    · rfl

/-- One per-SKU step on a SKU already recorded with the same observed state,
when the response URL resolves to the base URL: no dispatch and no state
change. -/
theorem processSku_same_observation (cfg : AppConfig) (fetch : String → StockFetch)
    (now : Nat) (sku feSku act price : String) (uOpt : Option String) (s : PollState)
    (hf : fetch sku = StockFetch.item feSku act price uOpt)
    (hurl : urlOr uOpt cfg.baseUrl = cfg.baseUrl)
    (hlook : lookupA s.lastStockStatus feSku = some (act == "true")) :
    countDispatch (processSku cfg true fetch now sku s).1 = 0
    ∧ (processSku cfg true fetch now sku s).2.1.lastStockStatus
        = s.lastStockStatus := by
  have htr : (match lookupA s.lastStockStatus feSku with
      | none => true
      | some v => decide (v ≠ (act == "true")) || decide
          (urlOr uOpt cfg.baseUrl ≠ cfg.baseUrl)) = false := by
    rw [hlook, hurl]
    simp
  constructor
  · simp only [processSku, hf]
    rw [htr]
    cases hL : cfg.notif.logStockChecks <;>
      simp [hL, countDispatch, List.countP_append, List.countP_cons,
        List.countP_nil, isDispatchCall]
  · simp only [processSku, hf]
    rw [htr]
    rfl

/-- The per-SKU loop on a single SKU reduces to one step. -/
theorem checkSkus_single (cfg : AppConfig) (fetch : String → StockFetch) (now : Nat)
    (sku : String) (s : PollState) :
    countDispatch (checkSkus cfg true fetch now [sku] s).1
        = countDispatch (processSku cfg true fetch now sku s).1
    ∧ (checkSkus cfg true fetch now [sku] s).2.1
        = (processSku cfg true fetch now sku s).2.1 := by
  simp only [checkSkus, Bool.not_true]
  cases hr : (processSku cfg true fetch now sku s).2.2 <;>
    simp [hr, checkSkus, countDispatch]

/-- One poll of a single SKU: the dispatch count comes from the per-SKU step
applied after the status preamble, which never dispatches stock alerts. -/
theorem checkNvidia_single (cfg : AppConfig) (fetch : String → StockFetch) (now : Nat)
    (sku : String) (s : PollState) :
    countDispatch (checkNvidiaStock cfg true fetch now [sku] s).1
        = countDispatch (processSku cfg true fetch now sku (statusPreamble cfg now s).2).1
    ∧ (checkNvidiaStock cfg true fetch now [sku] s).2.1
        = (processSku cfg true fetch now sku (statusPreamble cfg now s).2).2.1 := by
  have hc := checkSkus_single cfg fetch now sku (statusPreamble cfg now s).2
  simp only [checkNvidiaStock, Bool.not_true, if_false, countDispatch,
    List.countP_append]
  constructor
  · have hp := statusPreamble_countDispatch cfg now s
    simp only [countDispatch] at hp hc
    simp [hp, hc.1]
  · exact hc.2

/-- Claim C1, amended theorem.  For a SKU whose identical successful
responses resolve their product URL to the configured base URL, two
consecutive poll calls dispatch the stock alert exactly once — on the first
call, when the SKU is absent from the stock state — and zero times on the
second call, leaving the stock state unchanged.  (Without the base-URL
condition the code re-dispatches on every call; see the counterexample.) -/
theorem c1_alert_once_when_url_is_base (cfg : AppConfig) (fetch : String → StockFetch)
    (now1 now2 : Nat) (sku feSku act price : String) (uOpt : Option String)
    (s : PollState)
    (hf : fetch sku = StockFetch.item feSku act price uOpt)
    (hurl : urlOr uOpt cfg.baseUrl = cfg.baseUrl)
    (habs : lookupA s.lastStockStatus feSku = none) :
    countDispatch (checkNvidiaStock cfg true fetch now1 [sku] s).1 = 1
    ∧ countDispatch (checkNvidiaStock cfg true fetch now2 [sku]
        (checkNvidiaStock cfg true fetch now1 [sku] s).2.1).1 = 0
    ∧ (checkNvidiaStock cfg true fetch now2 [sku]
        (checkNvidiaStock cfg true fetch now1 [sku] s).2.1).2.1.lastStockStatus
      = (checkNvidiaStock cfg true fetch now1 [sku] s).2.1.lastStockStatus := by
  obtain ⟨hcnt1, hst1⟩ := checkNvidia_single cfg fetch now1 sku s
  obtain ⟨hp1c, hp1s⟩ := processSku_first_observation cfg fetch now1 sku feSku act
    price uOpt (statusPreamble cfg now1 s).2 hf
    (by rw [statusPreamble_stock]; exact habs)
  have hstock1 : (checkNvidiaStock cfg true fetch now1 [sku] s).2.1.lastStockStatus
      = updateAssoc s.lastStockStatus feSku (act == "true") := by
    rw [hst1, hp1s, statusPreamble_stock]
  obtain ⟨hcnt2, hst2⟩ := checkNvidia_single cfg fetch now2 sku
    (checkNvidiaStock cfg true fetch now1 [sku] s).2.1
  obtain ⟨hp2c, hp2s⟩ := processSku_same_observation cfg fetch now2 sku feSku act
    price uOpt
    (statusPreamble cfg now2 (checkNvidiaStock cfg true fetch now1 [sku] s).2.1).2
    hf hurl
    (by
      rw [statusPreamble_stock, hstock1]
      exact lookupA_updateAssoc s.lastStockStatus feSku (act == "true"))
  refine ⟨by rw [hcnt1, hp1c], by rw [hcnt2, hp2c], ?_⟩
  rw [hst2, hp2s, statusPreamble_stock]

/-- Witness for c1_alert_once_when_url_is_base: SKU "S", out of stock, no
product_url (so the URL falls back to the base URL), polled twice from the
initial state. -/
theorem c1_alert_once_witness :
    countDispatch (checkNvidiaStock cfgQuiet true fetchNoUrl 0 ["S"] pollInit).1 = 1
    ∧ countDispatch (checkNvidiaStock cfgQuiet true fetchNoUrl 5 ["S"]
        (checkNvidiaStock cfgQuiet true fetchNoUrl 0 ["S"] pollInit).2.1).1 = 0
    ∧ (checkNvidiaStock cfgQuiet true fetchNoUrl 5 ["S"]
        (checkNvidiaStock cfgQuiet true fetchNoUrl 0 ["S"] pollInit).2.1).2.1.lastStockStatus
      = (checkNvidiaStock cfgQuiet true fetchNoUrl 0 ["S"] pollInit).2.1.lastStockStatus :=
  c1_alert_once_when_url_is_base cfgQuiet fetchNoUrl 0 5 "S" "S" "false" "9" none
    pollInit rfl rfl rfl

/-- Claim C6, theorem.  A per-SKU request failure increments the
failed-request counter, marks the last check failed, emits the failure log
event, and the loop proceeds to the remaining SKUs of the same tick from
exactly that updated state — the failure neither terminates the poll call
nor dispatches anything. -/
theorem c6_failure_counted_continues (cfg : AppConfig) (fetch : String → StockFetch)
    (now : Nat) (sku : String) (rest : List String) (s : PollState)
    (hf : fetch sku = StockFetch.failure) :
    checkSkus cfg true fetch now (sku :: rest) s
      = ((if cfg.notif.logStockChecks then [PEvent.checkLog sku] else [])
            ++ [PEvent.request sku, PEvent.requestFailed sku]
            ++ (checkSkus cfg true fetch now rest
                { s with failedRequests := s.failedRequests + 1,
                         lastCheckSuccess := false, lastCheckTime := some now }).1,
          (checkSkus cfg true fetch now rest
              { s with failedRequests := s.failedRequests + 1,
                       lastCheckSuccess := false, lastCheckTime := some now }).2.1,
          (checkSkus cfg true fetch now rest
              { s with failedRequests := s.failedRequests + 1,
                       lastCheckSuccess := false, lastCheckTime := some now }).2.2)
    ∧ PEvent.requestFailed sku ∈ (checkSkus cfg true fetch now (sku :: rest) s).1 := by
  have h1 : checkSkus cfg true fetch now (sku :: rest) s
      = ((if cfg.notif.logStockChecks then [PEvent.checkLog sku] else [])
            ++ [PEvent.request sku, PEvent.requestFailed sku]
            ++ (checkSkus cfg true fetch now rest
                { s with failedRequests := s.failedRequests + 1,
                         lastCheckSuccess := false, lastCheckTime := some now }).1,
          (checkSkus cfg true fetch now rest
              { s with failedRequests := s.failedRequests + 1,
                       lastCheckSuccess := false, lastCheckTime := some now }).2.1,
          (checkSkus cfg true fetch now rest
              { s with failedRequests := s.failedRequests + 1,
                       lastCheckSuccess := false, lastCheckTime := some now }).2.2) := by
    simp [checkSkus, processSku, hf, List.append_assoc]
  refine ⟨h1, ?_⟩
  rw [h1]
  simp

/-- Witness for c6_failure_counted_continues: the request for "X" fails and
the poll continues with "Y" from the updated counters. -/
theorem c6_failure_continues_witness :
    checkSkus cfgQuiet true fetchFail 3 ["X", "Y"] pollInit
      = ((if cfgQuiet.notif.logStockChecks then [PEvent.checkLog "X"] else [])
            ++ [PEvent.request "X", PEvent.requestFailed "X"]
            ++ (checkSkus cfgQuiet true fetchFail 3 ["Y"]
                { pollInit with failedRequests := pollInit.failedRequests + 1,
                                lastCheckSuccess := false, lastCheckTime := some 3 }).1,
          (checkSkus cfgQuiet true fetchFail 3 ["Y"]
              { pollInit with failedRequests := pollInit.failedRequests + 1,
                              lastCheckSuccess := false, lastCheckTime := some 3 }).2.1,
          (checkSkus cfgQuiet true fetchFail 3 ["Y"]
              { pollInit with failedRequests := pollInit.failedRequests + 1,
                              lastCheckSuccess := false, lastCheckTime := some 3 }).2.2)
    ∧ PEvent.requestFailed "X" ∈ (checkSkus cfgQuiet true fetchFail 3 ["X", "Y"] pollInit).1 :=
  c6_failure_counted_continues cfgQuiet fetchFail 3 "X" ["Y"] pollInit rfl

theorem countP_attempt_map (hs : List Handler) :
    (hs.map (fun h => HEvent.attempt h.name)).countP isAttemptEvent = hs.length := by
  induction hs with
  | nil => rfl
  | cons h t ih => simp [List.countP_cons, ih, isAttemptEvent]

theorem countP_attempt_filterMap (hs : List Handler) :
    (hs.filterMap (fun h => match h.alertResult with
      | Except.error e => some (HEvent.errLogged e)
      | Except.ok _ => none)).countP isAttemptEvent = 0 := by
  induction hs with
  | nil => rfl
  | cons h t ih =>
    cases hr : h.alertResult <;>
      simp [List.filterMap_cons, hr, List.countP_cons, ih, isAttemptEvent]

theorem countP_statusAttempt (hs : List Handler) :
    (sendStatusUpdate hs).countP isStatusAttemptEvent = hs.length := by
  induction hs with
  | nil => rfl
  | cons h t ih =>
    simp only [sendStatusUpdate] at ih ⊢
    cases hr : h.statusResult <;>
      simp [hr, List.countP_append, List.countP_cons, ih, isStatusAttemptEvent]

/-- Claim C8, theorem.  A raising send method of one handler is caught and
logged (the error appears as a logged event, the exception does not
propagate), every handler — including every other one — still receives its
delivery attempt for the event, and the number of delivery attempts equals
the number of registered handlers, for both the gathered stock alert and the
sequential status update. -/
theorem c8_channel_isolation (hs : List Handler) (h g : Handler) (e1 e2 : String)
    (hmem : h ∈ hs) (hg : g ∈ hs)
    (herrA : h.alertResult = Except.error e1)
    (herrS : h.statusResult = Except.error e2) :
    HEvent.errLogged e1 ∈ sendStockAlert hs
    ∧ HEvent.statusErrLogged h.name e2 ∈ sendStatusUpdate hs
    ∧ HEvent.attempt g.name ∈ sendStockAlert hs
    ∧ HEvent.statusAttempt g.name ∈ sendStatusUpdate hs
    ∧ (sendStockAlert hs).countP isAttemptEvent = hs.length
    ∧ (sendStatusUpdate hs).countP isStatusAttemptEvent = hs.length := by
  refine ⟨?_, ?_, ?_, ?_, ?_, countP_statusAttempt hs⟩
  · exact List.mem_append_right _
      (List.mem_filterMap.mpr ⟨h, hmem, by rw [herrA]⟩)
  · refine List.mem_flatten.mpr ⟨HEvent.statusAttempt h.name ::
      (match h.statusResult with
       | Except.error e => [HEvent.statusErrLogged h.name e]
       | Except.ok _ => []), List.mem_map.mpr ⟨h, hmem, rfl⟩, ?_⟩
    rw [herrS]
    simp
  · exact List.mem_append_left _ (List.mem_map.mpr ⟨g, hg, rfl⟩)
  · exact List.mem_flatten.mpr ⟨HEvent.statusAttempt g.name ::
      (match g.statusResult with
       | Except.error e => [HEvent.statusErrLogged g.name e]
       | Except.ok _ => []), List.mem_map.mpr ⟨g, hg, rfl⟩,
      List.mem_cons_self _ _⟩
  · simp only [sendStockAlert, List.countP_append, countP_attempt_map,
      countP_attempt_filterMap, Nat.add_zero]

/-- Witness for c8_channel_isolation: two handlers, the second one raising
from both send methods; the first still gets both delivery attempts and both
failures are logged. -/
theorem c8_channel_isolation_witness :
    HEvent.errLogged "boom" ∈ sendStockAlert [handlerGood, handlerBad]
    ∧ HEvent.statusErrLogged handlerBad.name "boom"
        ∈ sendStatusUpdate [handlerGood, handlerBad]
    ∧ HEvent.attempt handlerGood.name ∈ sendStockAlert [handlerGood, handlerBad]
    ∧ HEvent.statusAttempt handlerGood.name ∈ sendStatusUpdate [handlerGood, handlerBad]
    ∧ (sendStockAlert [handlerGood, handlerBad]).countP isAttemptEvent
        = [handlerGood, handlerBad].length
    ∧ (sendStatusUpdate [handlerGood, handlerBad]).countP isStatusAttemptEvent
        = [handlerGood, handlerBad].length :=
  c8_channel_isolation [handlerGood, handlerBad] handlerBad handlerGood "boom" "boom"
    (List.mem_cons_of_mem _ (List.mem_cons_self _ _)) (List.mem_cons_self _ _)
    rfl rfl

/-- Claim C10, theorem.  Presence of a configured product is decided by
case-insensitive substring containment of its name in some catalog display
name (and absence of any such containment makes it missing), and the
refreshed SKU list contains every catalog SKU whose display name contains,
case-insensitively, the name of some enabled configured card — in particular
one configured card (c here) can contribute several SKUs (the entries e1 and
e2) — given that selected_cards is the list of enabled card names, as main
builds it. -/
theorem c10_substring_matching (cards : List (String × Bool)) (selected : List String)
    (api : List (String × String)) (e1 e2 : String × String) (c : String × Bool)
    (p1 p2 : String)
    (hsel : selected = (cards.filter (fun x => x.2)).map (fun x => x.1))
    (h1 : e1 ∈ api) (h2 : e2 ∈ api)
    (hc : c ∈ cards) (hcEn : c.2 = true)
    (hm1 : pyIn (pyLower c.1) (pyLower e1.2) = true)
    (hm2 : pyIn (pyLower c.1) (pyLower e2.2) = true)
    (hp1sel : p1 ∈ selected)
    (hp1 : api.any (fun q => pyIn (pyLower p1) (pyLower q.2)) = true)
    (hp2sel : p2 ∈ selected)
    (hp2 : api.any (fun q => pyIn (pyLower p2) (pyLower q.2)) = false) :
    e1.1 ∈ enabledSkus cards selected api
    ∧ e2.1 ∈ enabledSkus cards selected api
    ∧ p1 ∉ missingProducts api selected
    ∧ p2 ∈ missingProducts api selected := by
  refine ⟨mem_enabledSkus_of_entry cards selected api e1 c h1 hc hcEn hm1 hsel,
    mem_enabledSkus_of_entry cards selected api e2 c h2 hc hcEn hm2 hsel, ?_, ?_⟩
  · intro hcontra
    have hpred := (List.mem_filter.mp hcontra).2
    rw [hp1] at hpred
    cases hpred
  · exact List.mem_filter.mpr ⟨hp2sel, by rw [hp2]; rfl⟩

/-- Witness for c10_substring_matching: enabled card "RTX 5090" matches two
catalog entries case-insensitively (so it contributes SKU1 and SKU2), while
enabled card "RTX 5099" matches none and is classified missing. -/
theorem c10_substring_matching_witness :
    "SKU1" ∈ enabledSkus cardsMatching ["RTX 5090", "RTX 5099"] apiMatching
    ∧ "SKU2" ∈ enabledSkus cardsMatching ["RTX 5090", "RTX 5099"] apiMatching
    ∧ "RTX 5090" ∉ missingProducts apiMatching ["RTX 5090", "RTX 5099"]
    ∧ "RTX 5099" ∈ missingProducts apiMatching ["RTX 5090", "RTX 5099"] :=
  c10_substring_matching cardsMatching ["RTX 5090", "RTX 5099"] apiMatching
    ("SKU1", "NVIDIA RTX 5090 FE") ("SKU2", "RTX 5090 OC") ("RTX 5090", true)
    "RTX 5090" "RTX 5099" (by decide) (by decide) (by decide) (by decide)
    (by decide) (by decide) (by decide) (by decide) (by decide) (by decide)
    (by decide)

end StockPing
